import Mathlib

/-!
Verification of the studio booking backend's slot-allocation core
(`backend/app/utils/booking_helpers.py`, `backend/app/routes/booking.py`,
`backend/app/schemas/booking.py`, `backend/app/models/booking.py`).

Modelling conventions of the shallow embedding:
* Clock times are minutes since midnight (`Nat`); dates are day numbers (`ℤ`);
  datetimes are seconds (`ℤ`).  The Python code combines a `date` and a `time`
  into a `datetime` before comparing; since the availability query filters on
  equal dates first, comparisons of such datetimes coincide with comparisons of
  the raw times, which is how `check_time_slot_available` is rendered below.
* Python `Decimal` money values are rendered as rationals (`ℚ`);
  `round(x, 2)` on a `Decimal` quantizes with the default `ROUND_HALF_EVEN`
  context, rendered by `round2` below.  The default context also rounds every
  arithmetic result to 28 significant digits (half-even), which matters for
  the non-terminating quotient in `calculate_booking_price`; `ctx28` below
  renders that context rounding.
* The database session is rendered as an explicit list of `Booking` records;
  each route handler becomes a pure function from its inputs to
  `Except BookingError _`.
-/

/-- The `BookingStatus` enum of `backend/app/models/booking.py`. -/
inductive BookingStatus where
  | PENDING_APPROVAL
  | APPROVED
  | REJECTED
  | CONFIRMED
  | CHECKED_IN
  | COMPLETED
  | CANCELLED
  | REFUNDED
deriving DecidableEq, Repr

/-- Typed errors raised by the booking routes (HTTPException in the source;
the spec's §7 error kinds). `invalidTransition` carries the current status as
the route's 400 detail string does. -/
inductive BookingError where
  | notFound (detail : String)
  | forbidden (detail : String)
  | conflict (detail : String)
  | badRequest (detail : String)
  | invalidTransition (current : BookingStatus)
  | invalidInterval
  | validationError (detail : String)
deriving DecidableEq, Repr

/-- The `Booking` model row (`backend/app/models/booking.py`). -/
structure Booking where
  booking_id : Nat
  user_id : Nat
  resource_id : Nat
  studio_id : Nat
  booking_date : ℤ
  start_time : Nat
  end_time : Nat
  duration_minutes : ℤ
  status : BookingStatus
  total_amount : ℚ
  currency : String
  approved_at : Option ℤ
  approved_by : Option Nat
  rejection_reason : Option String
  cancelled_at : Option ℤ
  cancel_reason : Option String
  refund_percentage : Option ℚ
  refund_amount : Option ℚ
deriving DecidableEq, Repr

/-- The `Resource` model fields used by the booking routes. -/
structure Resource where
  resource_id : Nat
  studio_id : Nat
  base_price_per_hour : ℚ
  is_active : Bool
deriving DecidableEq, Repr

/-- The `Studio` model fields used by the booking routes. -/
structure Studio where
  studio_id : Nat
  owner_id : Nat
  is_active : Bool
  is_published : Bool
deriving DecidableEq, Repr

/-- Round-half-even ("banker's") rounding of a rational to an integer: the
tie-break used by Python `Decimal` quantization in its default context. -/
def roundHalfEvenInt (x : ℚ) : ℤ :=
  let n := ⌊x⌋
  let f := x - n
  if f < 1/2 then n
  else if 1/2 < f then n + 1
  else if n % 2 = 0 then n else n + 1

/-- `round(x, 2)` on a Python `Decimal`: quantize to 2 decimal places with
round-half-even. -/
def round2 (x : ℚ) : ℚ :=
  (roundHalfEvenInt (x * 100) : ℚ) / 100

/-- `calculate_duration_minutes` (booking_helpers.py lines 10-24): minutes
between two same-day times, at the minute granularity of the model. -/
def calculate_duration_minutes (start_time end_time : Nat) : ℤ :=
  (end_time : ℤ) - (start_time : ℤ)

/-- Python `Decimal` default-context rounding: every operation result is
rounded half-even to 28 significant digits.  For a nonzero value `q` the
adjusted exponent is `Int.log 10 |q|`, so the coefficient is `q` scaled by
`10 ^ (27 - Int.log 10 |q|)`; values expressible in at most 28 digits are
unchanged. -/
def ctx28 (q : ℚ) : ℚ :=
  if q = 0 then 0
  else
    let s : ℤ := 27 - Int.log 10 |q|
    (roundHalfEvenInt (q * 10 ^ s) : ℚ) / 10 ^ s

/-- `calculate_booking_price` (booking_helpers.py lines 27-40):
`hours = Decimal(duration) / Decimal(60)`, `total = rate * hours`, rounded to
2 places.  The division and the multiplication each go through the default
28-digit context (`ctx28`), as in Python. -/
def calculate_booking_price (base_price_per_hour : ℚ) (duration_minutes : ℤ) : ℚ :=
  let hours : ℚ := ctx28 ((duration_minutes : ℚ) / 60)
  let total := ctx28 (base_price_per_hour * hours)
  round2 total

/-- The statuses the availability query treats as still reserving the slot
(booking_helpers.py lines 70-75). -/
def activeStatuses : List BookingStatus :=
  [.PENDING_APPROVAL, .APPROVED, .CONFIRMED, .CHECKED_IN]

/-- `check_time_slot_available` (booking_helpers.py lines 43-96).  The filter
keeps bookings of the resource and date in an active status; Python's
`if exclude_booking_id:` is truthy, i.e. the extra filter only applies when the
argument is nonzero (the default `None` is 0 here).  The overlap test compares
`datetime.combine` values; as the dates agree by the filter this is the raw
time comparison written below. -/
def check_time_slot_available (db : List Booking) (resource_id : Nat)
    (booking_date : ℤ) (start_time end_time : Nat)
    (exclude_booking_id : Nat := 0) : Bool :=
  let query := db.filter (fun b =>
    b.resource_id == resource_id && b.booking_date == booking_date &&
      activeStatuses.contains b.status)
  let existing_bookings :=
    if exclude_booking_id ≠ 0 then
      query.filter (fun b => b.booking_id != exclude_booking_id)
    else query
  existing_bookings.all (fun b =>
    !(start_time < b.end_time && end_time > b.start_time))

/-- Loop body of `generate_time_slots` (booking_helpers.py lines 99-123),
with fuel standing in for the unbounded `while`. -/
def generate_time_slots_go (fuel : Nat) (current end_dt interval : Nat) :
    List (Nat × Nat) :=
  match fuel with
  | 0 => []
  | fuel + 1 =>
    if current < end_dt then
      let slot_start := current
      let next := current + interval
      if next ≤ end_dt then
        (slot_start, next) :: generate_time_slots_go fuel next end_dt interval
      else generate_time_slots_go fuel next end_dt interval
    else []

/-- `generate_time_slots` (booking_helpers.py lines 99-123): 30-minute windows
between opening and closing time.  `end_time + 1` steps of fuel suffice for any
positive interval. -/
def generate_time_slots (start_time end_time : Nat)
    (interval_minutes : Nat := 30) : List (Nat × Nat) :=
  generate_time_slots_go (end_time + 1) start_time end_time interval_minutes

/-- `datetime.combine(booking_date, start_time)` rendered in seconds. -/
def datetime_combine (day : ℤ) (time_minutes : Nat) : ℤ :=
  day * 86400 + (time_minutes : ℤ) * 60

/-- `calculate_refund_amount` (booking_helpers.py lines 128-163): 80% when the
lead time is at least 24 hours, else 0%; amount rounded to 2 places.
`cancellation_date` is a datetime in seconds. -/
def calculate_refund_amount (total_amount : ℚ) (booking_date : ℤ)
    (start_time : Nat) (cancellation_date : ℤ) : ℚ × ℚ :=
  let booking_datetime := datetime_combine booking_date start_time
  let hours_until_booking : ℚ :=
    ((booking_datetime - cancellation_date : ℤ) : ℚ) / 3600
  let refund_percentage : ℚ := if 24 ≤ hours_until_booking then 80 else 0
  let refund_amount := (total_amount * refund_percentage) / 100
  (refund_percentage, round2 refund_amount)

/-- A `TimeSlot` of the available-slots response (schemas/booking.py). -/
structure TimeSlot where
  start_time : Nat
  end_time : Nat
  is_available : Bool
  price : ℚ
deriving DecidableEq, Repr

/-- `BookingCreate` request schema (schemas/booking.py lines 11-43). -/
structure BookingCreate where
  resource_id : Nat
  booking_date : ℤ
  start_time : Nat
  end_time : Nat
deriving DecidableEq, Repr

/-- `BookingApproval` request schema (schemas/booking.py lines 97-117). -/
structure BookingApproval where
  approve : Bool
  rejection_reason : Option String
deriving DecidableEq, Repr

/-- `BookingCancellation` request schema (schemas/booking.py lines 123-134). -/
structure BookingCancellation where
  cancel_reason : String
deriving DecidableEq, Repr

/-- Python falsiness of an optional string: `None` or the empty string. -/
def optionStringBlank (v : Option String) : Bool :=
  match v with
  | none => true
  | some s => s == ""

/-- `BookingCreate.validate_time_range` (schemas/booking.py lines 28-33): the
pydantic `ValueError` on `end <= start`, classified `InvalidInterval` per the
spec's §7 error taxonomy. -/
def validate_time_range (start_time end_time : Nat) : Except BookingError Unit :=
  if end_time ≤ start_time then .error .invalidInterval else .ok ()

/-- The Time Arithmetic duration operation as exposed to callers: the schema
validator followed by `calculate_duration_minutes`. -/
def duration_minutes_checked (start_time end_time : Nat) :
    Except BookingError ℤ :=
  match validate_time_range start_time end_time with
  | .error e => .error e
  | .ok _ => .ok (calculate_duration_minutes start_time end_time)

/-- `BookingApproval.validate_rejection_reason` (schemas/booking.py lines
104-109): rejecting with a falsy reason raises a validation error. -/
def validate_rejection_reason (approve : Bool) (v : Option String) :
    Except BookingError (Option String) :=
  if !approve && optionStringBlank v then
    .error (.validationError "Rejection reason is required when rejecting a booking")
  else .ok v

/-- Loop body of `get_available_slots` (routes/booking.py lines 78-106): the
route's own 30-minute slot loop, annotating each window with availability and
price. -/
def get_available_slots_go (fuel : Nat) (db : List Booking)
    (resource_id : Nat) (booking_date : ℤ) (base_price_per_hour : ℚ)
    (current end_time : Nat) : List TimeSlot :=
  match fuel with
  | 0 => []
  | fuel + 1 =>
    if current < end_time then
      let slot_start := current
      let next := current + 30
      if next ≤ end_time then
        { start_time := slot_start
          end_time := next
          is_available := check_time_slot_available db resource_id booking_date
            slot_start next
          price := calculate_booking_price base_price_per_hour 30 } ::
          get_available_slots_go fuel db resource_id booking_date
            base_price_per_hour next end_time
      else
        get_available_slots_go fuel db resource_id booking_date
          base_price_per_hour next end_time
    else []

/-- `get_available_slots` (routes/booking.py lines 38-107): 404/400 checks,
then 30-minute slots over the fixed 09:00-22:00 window (540-1320 minutes). -/
def get_available_slots (db : List Booking) (resource : Resource)
    (booking_date : ℤ) : Except BookingError (List TimeSlot) :=
  if !resource.is_active then
    .error (.badRequest "This resource is not currently available for booking")
  else
    let open_time : Nat := 540
    let close_time : Nat := 1320
    .ok (get_available_slots_go (close_time + 1) db resource.resource_id
      booking_date resource.base_price_per_hour open_time close_time)

/-- `create_booking` (routes/booking.py lines 114-208): validate resource and
studio, availability, duration; persist a `PENDING_APPROVAL` booking priced by
`calculate_booking_price`. -/
def create_booking (db : List Booking) (resources : List Resource)
    (studios : List Studio) (current_user_id : Nat)
    (booking_data : BookingCreate) : Except BookingError Booking :=
  match resources.find? (fun r => r.resource_id == booking_data.resource_id) with
  | none => .error (.notFound "Resource not found")
  | some resource =>
    if !resource.is_active then
      .error (.badRequest "This resource is not available for booking")
    else
      match studios.find? (fun s => s.studio_id == resource.studio_id) with
      | none => .error (.notFound "Studio not found")
      | some studio =>
        if !studio.is_published || !studio.is_active then
          .error (.badRequest "This studio is not currently accepting bookings")
        else if !check_time_slot_available db booking_data.resource_id
            booking_data.booking_date booking_data.start_time
            booking_data.end_time then
          .error (.conflict "This time slot is already booked. Please choose a different time.")
        else
          let duration := calculate_duration_minutes booking_data.start_time
            booking_data.end_time
          if duration < 30 then
            .error (.badRequest "Minimum booking duration is 30 minutes")
          else if duration % 30 ≠ 0 then
            .error (.badRequest "Booking duration must be in 30-minute increments")
          else
            let total_amount := calculate_booking_price
              resource.base_price_per_hour duration
            .ok { booking_id := 0
                  user_id := current_user_id
                  resource_id := booking_data.resource_id
                  studio_id := resource.studio_id
                  booking_date := booking_data.booking_date
                  start_time := booking_data.start_time
                  end_time := booking_data.end_time
                  duration_minutes := duration
                  status := .PENDING_APPROVAL
                  total_amount := total_amount
                  currency := "INR"
                  approved_at := none
                  approved_by := none
                  rejection_reason := none
                  cancelled_at := none
                  cancel_reason := none
                  refund_percentage := none
                  refund_amount := none }

/-- `approve_or_reject_booking` (routes/booking.py lines 294-348), after the
booking and its studio have been fetched. -/
def approve_or_reject_booking (booking : Booking) (studio : Studio)
    (approval_data : BookingApproval) (current_user_id : Nat) (now : ℤ) :
    Except BookingError Booking :=
  if studio.owner_id ≠ current_user_id then
    .error (.forbidden "You do not have permission to approve this booking")
  else if booking.status ≠ .PENDING_APPROVAL then
    .error (.invalidTransition booking.status)
  else if approval_data.approve then
    .ok { booking with
          status := .APPROVED
          approved_at := some now
          approved_by := some current_user_id
          rejection_reason := none }
  else
    .ok { booking with
          status := .REJECTED
          rejection_reason := approval_data.rejection_reason
          approved_at := none
          approved_by := none }

/-- The full owner decision path: pydantic validation of the request body,
then the route handler. -/
def decide_booking (booking : Booking) (studio : Studio) (approve : Bool)
    (rejection_reason : Option String) (current_user_id : Nat) (now : ℤ) :
    Except BookingError Booking :=
  match validate_rejection_reason approve rejection_reason with
  | .error e => .error e
  | .ok r =>
    approve_or_reject_booking booking studio
      { approve := approve, rejection_reason := r } current_user_id now

/-- `cancel_booking` (routes/booking.py lines 355-411), after the booking has
been fetched: ownership check, terminal-status guard, refund computation, then
the in-place update. -/
def cancel_booking (booking : Booking)
    (cancellation_data : BookingCancellation) (current_user_id : Nat)
    (now : ℤ) : Except BookingError Booking :=
  if booking.user_id ≠ current_user_id then
    .error (.forbidden "You can only cancel your own bookings")
  else if booking.status ∈ [BookingStatus.CANCELLED, .REFUNDED, .COMPLETED] then
    .error (.invalidTransition booking.status)
  else
    let r := calculate_refund_amount booking.total_amount booking.booking_date
      booking.start_time now
    .ok { booking with
          status := .CANCELLED
          cancelled_at := some now
          cancel_reason := some cancellation_data.cancel_reason
          refund_percentage := some r.1
          refund_amount := some r.2 }

/-- The stored row after an operation: the returned row on success, the
untouched row when the handler raised. -/
def post_state (booking : Booking) (r : Except BookingError Booking) : Booking :=
  match r with
  | .ok b => b
  | .error _ => booking

/-- A booking in `APPROVED` status, used to instantiate availability facts. -/
def mkActiveBooking (resource_id : Nat) (booking_date : ℤ)
    (start_time end_time : Nat) : Booking :=
  { booking_id := 1
    user_id := 1
    resource_id := resource_id
    studio_id := 1
    booking_date := booking_date
    start_time := start_time
    end_time := end_time
    duration_minutes := (end_time : ℤ) - (start_time : ℤ)
    status := .APPROVED
    total_amount := 0
    currency := "INR"
    approved_at := none
    approved_by := none
    rejection_reason := none
    cancelled_at := none
    cancel_reason := none
    refund_percentage := none
    refund_amount := none }

/-- A published, active studio owned by user 5. -/
def sampleStudio : Studio :=
  { studio_id := 1, owner_id := 5, is_active := true, is_published := true }

/-- An active resource of `sampleStudio` at 1500.00/hr. -/
def sampleResource : Resource :=
  { resource_id := 1, studio_id := 1, base_price_per_hour := 1500,
    is_active := true }

/-- A pending booking by customer 7 for 14:00-16:00 (840-960 minutes) on
`sampleResource`, priced 3000.00. -/
def samplePendingBooking : Booking :=
  { booking_id := 3
    user_id := 7
    resource_id := 1
    studio_id := 1
    booking_date := 2
    start_time := 840
    end_time := 960
    duration_minutes := 120
    status := .PENDING_APPROVAL
    total_amount := 3000
    currency := "INR"
    approved_at := none
    approved_by := none
    rejection_reason := none
    cancelled_at := none
    cancel_reason := none
    refund_percentage := none
    refund_amount := none }

/-- `samplePendingBooking` after an owner rejection. -/
def sampleRejectedBooking : Booking :=
  { samplePendingBooking with status := .REJECTED }

theorem roundHalfEvenInt_intCast (n : ℤ) : roundHalfEvenInt (n : ℚ) = n := by
  simp only [roundHalfEvenInt, Int.floor_intCast, sub_self]
  norm_num

theorem round2_hundredth (n : ℤ) : round2 ((n : ℚ) / 100) = (n : ℚ) / 100 := by
  unfold round2
  rw [div_mul_cancel₀ _ (by norm_num : (100 : ℚ) ≠ 0), roundHalfEvenInt_intCast]

theorem int_log10_eq (r : ℚ) (e : ℤ) (hr : 0 < r)
    (h1 : (10:ℚ)^e ≤ r) (h2 : r < (10:ℚ)^(e+1)) : Int.log 10 r = e := by
  have hb : 1 < (10:ℕ) := by norm_num
  have h1a : ((10:ℕ):ℚ)^e ≤ r := by push_cast; exact h1
  have h2a : r < ((10:ℕ):ℚ)^(e+1) := by push_cast; exact h2
  have ha := (Int.zpow_le_iff_le_log hb hr).mp h1a
  have hb2 := (Int.lt_zpow_iff_log_lt hb hr).mp h2a
  omega

theorem ctx28_eq_self (q : ℚ) (k : ℤ) (hk : q = (k:ℚ)/1000)
    (hbound : |q| ≤ 10^24) : ctx28 q = q := by
  by_cases hq : q = 0
  · simp [ctx28, hq]
  · have habs : (0:ℚ) < |q| := abs_pos.mpr hq
    have he : Int.log 10 |q| ≤ 24 := by
      have h24 : |q| ≤ ((10:ℕ):ℚ)^(24:ℤ) := by
        rw [show (((10:ℕ):ℚ)^(24:ℤ)) = 10^24 by push_cast [zpow_ofNat]; norm_num]
        exact hbound
      have hmono := Int.log_mono_right (b := 10) habs h24
      rwa [Int.log_zpow (b := 10) (by norm_num : 1 < (10:ℕ)) 24] at hmono
    set e := Int.log 10 |q| with hedef
    have hzq : q * (10:ℚ)^(27 - e) = ((k * 10 ^ ((27 - e - 3).toNat) : ℤ) : ℚ) := by
      set t : ℕ := (27 - e - 3).toNat with htdef
      have ht : (27 - e : ℤ) = (t : ℤ) + 3 := by omega
      rw [hk, ht, zpow_add₀ (by norm_num : (10:ℚ) ≠ 0), zpow_natCast,
        show ((10:ℚ)^(3:ℤ)) = 1000 by push_cast [zpow_ofNat]; norm_num]
      push_cast
      ring
    unfold ctx28
    rw [if_neg hq]
    show (roundHalfEvenInt (q * 10 ^ (27 - e)) : ℚ) / 10 ^ (27 - e) = q
    rw [hzq, roundHalfEvenInt_intCast,
      div_eq_iff (zpow_ne_zero _ (by norm_num : (10:ℚ) ≠ 0))]
    exact hzq.symm

theorem calculate_booking_price_exact (n m : ℤ) (h1 : 1 ≤ m) (h48 : m ≤ 48)
    (hn : |n| ≤ 10^12) :
    calculate_booking_price ((n:ℚ)/100) (30 * m) =
      round2 ((n:ℚ)/100 * (((30 * m : ℤ):ℚ) / 60)) := by
  unfold calculate_booking_price
  have hmq : ((30 * m : ℤ):ℚ) / 60 = (m:ℚ)/2 := by push_cast; ring
  have hmpos : (0:ℚ) < (m:ℚ) := by exact_mod_cast (by omega : (0:ℤ) < m)
  have hm48 : (m:ℚ) ≤ 48 := by exact_mod_cast h48
  have hhours : ctx28 (((30 * m : ℤ):ℚ) / 60) = ((30 * m : ℤ):ℚ) / 60 := by
    apply ctx28_eq_self _ (500 * m)
    · push_cast; ring
    · rw [hmq, abs_div, abs_of_pos hmpos,
        show |(2:ℚ)| = 2 by norm_num, div_le_iff₀ (by norm_num : (0:ℚ) < 2)]
      nlinarith
  rw [hhours]
  have hnq : |(n:ℚ)| ≤ 10^12 := by exact_mod_cast hn
  have htotal : ctx28 ((n:ℚ)/100 * (((30 * m : ℤ):ℚ) / 60)) =
      (n:ℚ)/100 * (((30 * m : ℤ):ℚ) / 60) := by
    apply ctx28_eq_self _ (5 * n * m)
    · push_cast; ring
    · have hval : (n:ℚ)/100 * (((30 * m : ℤ):ℚ) / 60) = (n:ℚ) * (m:ℚ) / 200 := by
        push_cast; ring
      rw [hval, abs_div, abs_mul, abs_of_pos hmpos,
        show |(200:ℚ)| = 200 by norm_num,
        div_le_iff₀ (by norm_num : (0:ℚ) < 200)]
      nlinarith [abs_nonneg (n:ℚ)]
  show round2 (ctx28 ((n:ℚ)/100 * (((30 * m : ℤ):ℚ) / 60))) =
    round2 ((n:ℚ)/100 * (((30 * m : ℤ):ℚ) / 60))
  rw [htotal]

theorem roundHalfEvenInt_eval_up (x : ℚ) (n : ℤ) (hfl : ⌊x⌋ = n)
    (hgt : 1/2 < x - n) : roundHalfEvenInt x = n + 1 := by
  unfold roundHalfEvenInt
  rw [hfl, if_neg (by linarith), if_pos hgt]

theorem roundHalfEvenInt_eval_tie (x : ℚ) (n : ℤ) (hfl : ⌊x⌋ = n)
    (htie : x - n = 1/2) (hev : n % 2 = 0) : roundHalfEvenInt x = n := by
  unfold roundHalfEvenInt
  rw [hfl, if_neg (by rw [htie]; exact lt_irrefl _),
    if_neg (by rw [htie]; exact lt_irrefl _), if_pos hev]

theorem ctx28_eval (q : ℚ) (e : ℤ) (z : ℤ) (hq : q ≠ 0)
    (hlog : Int.log 10 |q| = e)
    (hround : roundHalfEvenInt (q * 10 ^ (27 - e)) = z) :
    ctx28 q = (z:ℚ) / 10 ^ (27 - e) := by
  unfold ctx28
  rw [if_neg hq]
  show (roundHalfEvenInt (q * 10 ^ (27 - Int.log 10 |q|)) : ℚ) /
    10 ^ (27 - Int.log 10 |q|) = (z:ℚ) / 10 ^ (27 - e)
  rw [hlog, hround]

theorem calculate_booking_price_003_10 :
    calculate_booking_price (3/100) 10 = 1/100 := by
  unfold calculate_booking_price
  have h6 : ((10:ℤ):ℚ) / 60 = 1/6 := by norm_num
  have hlog1 : Int.log 10 |(1:ℚ)/6| = -1 := by
    rw [show |(1:ℚ)/6| = 1/6 by norm_num]
    apply int_log10_eq
    · norm_num
    · rw [show ((10:ℚ)^(-1:ℤ)) = 1/10 by norm_num]
      norm_num
    · rw [show ((-1:ℤ) + 1) = 0 by norm_num, zpow_zero]
      norm_num
  have hround1 : roundHalfEvenInt ((1/6 : ℚ) * 10 ^ ((27:ℤ) - (-1))) =
      1666666666666666666666666667 := by
    rw [show ((27:ℤ) - (-1)) = 28 by norm_num,
      show ((1/6 : ℚ) * 10 ^ (28:ℤ)) = 10000000000000000000000000000/6 by
        push_cast [zpow_ofNat]; norm_num]
    have := roundHalfEvenInt_eval_up ((10000000000000000000000000000:ℚ)/6)
      1666666666666666666666666666 (by rw [Int.floor_eq_iff] <;> norm_num)
      (by norm_num)
    exact this.trans (by norm_num)
  have hhours : ctx28 ((1:ℚ)/6) =
      (1666666666666666666666666667 : ℚ) / 10 ^ ((27:ℤ) - (-1)) :=
    ctx28_eval _ _ _ (by norm_num) hlog1 hround1
  rw [h6, hhours]
  show round2 (ctx28 ((3/100 : ℚ) *
    ((1666666666666666666666666667 : ℚ) / 10 ^ ((27:ℤ) - (-1))))) = 1/100
  have hv : (3/100 : ℚ) *
      ((1666666666666666666666666667 : ℚ) / 10 ^ ((27:ℤ) - (-1))) =
      5000000000000000000000000001 / 10 ^ (30:ℕ) := by
    rw [show ((27:ℤ) - (-1)) = 28 by norm_num]
    push_cast [zpow_ofNat]
    norm_num
  rw [hv]
  have hvne : (5000000000000000000000000001 : ℚ) / 10 ^ (30:ℕ) ≠ 0 := by
    norm_num
  have hlog2 : Int.log 10 |(5000000000000000000000000001:ℚ) / 10 ^ (30:ℕ)| = -3 := by
    rw [show |(5000000000000000000000000001:ℚ) / 10 ^ (30:ℕ)| =
      5000000000000000000000000001 / 10 ^ (30:ℕ) by norm_num]
    apply int_log10_eq
    · norm_num
    · rw [show ((10:ℚ)^(-3:ℤ)) = 1/1000 by
        rw [show (-3:ℤ) = -(3:ℤ) by norm_num, zpow_neg]
        norm_num [zpow_ofNat]]
      norm_num
    · rw [show ((-3:ℤ) + 1) = -(2:ℤ) by norm_num, zpow_neg,
        show ((10:ℚ)^(2:ℤ)) = 100 by norm_num [zpow_ofNat]]
      norm_num
  have hround2 : roundHalfEvenInt
      ((5000000000000000000000000001:ℚ) / 10 ^ (30:ℕ) * 10 ^ ((27:ℤ) - (-3))) =
      5000000000000000000000000001 := by
    rw [show ((27:ℤ) - (-3)) = 30 by norm_num,
      show ((5000000000000000000000000001:ℚ) / 10 ^ (30:ℕ) * 10 ^ (30:ℤ)) =
        ((5000000000000000000000000001 : ℤ) : ℚ) by push_cast [zpow_ofNat]; norm_num]
    exact roundHalfEvenInt_intCast _
  have htotal : ctx28 ((5000000000000000000000000001:ℚ) / 10 ^ (30:ℕ)) =
      (5000000000000000000000000001 : ℚ) / 10 ^ ((27:ℤ) - (-3)) :=
    ctx28_eval _ _ _ hvne hlog2 hround2
  rw [htotal, show ((27:ℤ) - (-3)) = 30 by norm_num]
  unfold round2
  rw [show (((5000000000000000000000000001 : ℚ) / 10 ^ (30:ℤ)) * 100) =
      5000000000000000000000000001 / 10 ^ (28:ℕ) by push_cast [zpow_ofNat]; norm_num]
  have hfl : ⌊(5000000000000000000000000001 : ℚ) / 10 ^ (28:ℕ)⌋ = 0 := by
    rw [Int.floor_eq_iff] <;> norm_num
  rw [roundHalfEvenInt_eval_up _ 0 hfl (by norm_num)]
  norm_num

/-- C6 (amended): for durations that are positive multiples of 30 minutes up
to a day and rates with 2 decimal places (as the DECIMAL(10,2) rate column
guarantees), the pricing function returns `rate * duration / 60` in exact
decimal arithmetic rounded to 2 places, and `price(rate, 60) = rate`,
`price(rate, 30) = round(rate/2, 2)`, `price(rate, 90) = round(rate*1.5, 2)`;
for other durations the 28-significant-digit context perturbs the quotient,
e.g. `price(0.03, 10)` is 0.01, not the exact-arithmetic 0.00. -/
theorem pricing_linearity (n m : ℤ) :
    (1 ≤ m → m ≤ 48 → |n| ≤ 10^12 →
      calculate_booking_price ((n:ℚ)/100) (30 * m) =
        round2 ((n:ℚ)/100 * (((30 * m : ℤ):ℚ) / 60)))
    ∧ (|n| ≤ 10^12 →
      calculate_booking_price ((n:ℚ)/100) 60 = (n:ℚ)/100
      ∧ calculate_booking_price ((n:ℚ)/100) 30 = round2 (((n:ℚ)/100) / 2)
      ∧ calculate_booking_price ((n:ℚ)/100) 90 = round2 ((n:ℚ)/100 * (3/2))) := by
  constructor
  · intro h1 h48 hn
    exact calculate_booking_price_exact n m h1 h48 hn
  · intro hn
    refine ⟨?_, ?_, ?_⟩
    · have h := calculate_booking_price_exact n 2 (by norm_num) (by norm_num) hn
      norm_num at h
      rw [h]
      exact round2_hundredth n
    · have h := calculate_booking_price_exact n 1 (by norm_num) (by norm_num) hn
      norm_num at h
      rw [h]
      congr 1
      ring
    · have h := calculate_booking_price_exact n 3 (by norm_num) (by norm_num) hn
      norm_num at h
      rw [h]

/-- C6 counterexample: at rate 0.03/hr and duration 10 minutes the program
returns 0.01 while `rate * duration / 60` in exact decimal arithmetic rounded
to 2 places is 0.00 — the claim's universal formula fails off the 30-minute
grid. -/
theorem pricing_context_counterexample :
    calculate_booking_price (3/100) 10 = 1/100
    ∧ round2 ((3:ℚ)/100 * (((10:ℤ):ℚ) / 60)) = 0
    ∧ (1:ℚ)/100 ≠ 0 := by
  refine ⟨calculate_booking_price_003_10, ?_, by norm_num⟩
  rw [show ((3:ℚ)/100 * (((10:ℤ):ℚ) / 60)) = 1/200 by norm_num]
  unfold round2
  rw [show ((1/200 : ℚ) * 100) = 1/2 by norm_num,
    roundHalfEvenInt_eval_tie (1/2 : ℚ) 0
      (by rw [Int.floor_eq_iff] <;> norm_num) (by norm_num) (by norm_num)]
  norm_num

theorem pricing_linearity_witness :
    calculate_booking_price (((150000:ℤ):ℚ)/100) (30 * 4) =
        round2 (((150000:ℤ):ℚ)/100 * (((30 * 4 : ℤ):ℚ) / 60))
    ∧ calculate_booking_price (((150000:ℤ):ℚ)/100) 60 = ((150000:ℤ):ℚ)/100
    ∧ calculate_booking_price (((150000:ℤ):ℚ)/100) 30 =
        round2 ((((150000:ℤ):ℚ)/100) / 2)
    ∧ calculate_booking_price (((150000:ℤ):ℚ)/100) 90 =
        round2 (((150000:ℤ):ℚ)/100 * (3/2)) :=
  ⟨(pricing_linearity 150000 4).1 (by norm_num) (by norm_num) (by norm_num),
    (pricing_linearity 150000 1).2 (by norm_num)⟩

theorem calculate_refund_amount_def (total : ℚ) (bd : ℤ) (st : Nat) (cd : ℤ) :
    calculate_refund_amount total bd st cd =
      if 86400 ≤ datetime_combine bd st - cd then
        (80, round2 (total * 80 / 100))
      else (0, round2 (total * 0 / 100)) := by
  have key : ((24 : ℚ) ≤ ((datetime_combine bd st - cd : ℤ) : ℚ) / 3600) ↔
      86400 ≤ datetime_combine bd st - cd := by
    rw [le_div_iff₀ (by norm_num : (0 : ℚ) < 3600),
      show ((24 : ℚ) * 3600 : ℚ) = ((86400 : ℤ) : ℚ) from by norm_num, Int.cast_le]
  by_cases h : 86400 ≤ datetime_combine bd st - cd
  · simp only [calculate_refund_amount]
    rw [if_pos (key.mpr h), if_pos h]
  · simp only [calculate_refund_amount]
    rw [if_neg fun hc => h (key.mp hc), if_neg h]

/-- C5: the refund is 80% exactly when the lead time is at least 24 hours and
0% otherwise, with the amount `total * percentage / 100` rounded to 2 places;
a lead of exactly 24h takes the 80% branch, 23h59m59s takes 0%. -/
theorem refund_policy (total : ℚ) (bd : ℤ) (st : Nat) (cd : ℤ) :
    (((calculate_refund_amount total bd st cd).1 = 80 ↔
        86400 ≤ datetime_combine bd st - cd)
      ∧ ((calculate_refund_amount total bd st cd).1 = 80
          ∨ (calculate_refund_amount total bd st cd).1 = 0)
      ∧ (calculate_refund_amount total bd st cd).2 =
          round2 (total * (calculate_refund_amount total bd st cd).1 / 100))
    ∧ calculate_refund_amount 1000 1 540 (datetime_combine 1 540 - 86400) =
        (80, 800)
    ∧ calculate_refund_amount 1000 1 540 (datetime_combine 1 540 - 86399) =
        (0, 0) := by
  refine ⟨?_, ?_, ?_⟩
  · rw [calculate_refund_amount_def]
    by_cases h : 86400 ≤ datetime_combine bd st - cd
    · rw [if_pos h]
      exact ⟨⟨fun _ => h, fun _ => rfl⟩, Or.inl rfl, rfl⟩
    · rw [if_neg h]
      exact ⟨⟨fun h80 => absurd h80 (by norm_num), fun hle => absurd hle h⟩,
        Or.inr rfl, rfl⟩
  · rw [calculate_refund_amount_def, if_pos (by omega : 86400 ≤ datetime_combine 1 540 - (datetime_combine 1 540 - 86400))]
    norm_num [round2, roundHalfEvenInt]
  · rw [calculate_refund_amount_def, if_neg (by simp [datetime_combine] : ¬ 86400 ≤ datetime_combine 1 540 - (datetime_combine 1 540 - 86399))]
    norm_num [round2, roundHalfEvenInt]

/-- C9: the checked duration operation returns the whole number of minutes
`end - start` exactly when `end > start`, and fails with `InvalidInterval`
exactly when `end <= start`. -/
theorem duration_minutes_spec (s e : Nat) :
    (duration_minutes_checked s e = .ok ((e : ℤ) - (s : ℤ)) ↔ s < e)
    ∧ (duration_minutes_checked s e = .error .invalidInterval ↔ e ≤ s) := by
  unfold duration_minutes_checked validate_time_range calculate_duration_minutes
  split_ifs with h
  · refine ⟨⟨fun hcontra => by simp at hcontra, fun hlt => by omega⟩,
      ⟨fun _ => h, fun _ => rfl⟩⟩
  · refine ⟨⟨fun _ => by omega, fun _ => rfl⟩,
      ⟨fun hcontra => by simp at hcontra, fun hle => absurd hle h⟩⟩

/-- C1: against a single active booking `[bs, be)`, the availability check
reports a conflict exactly when `s < be` and `e > bs`; touching intervals
09:00-10:00 and 10:00-11:00 never conflict while 09:00-10:01 and 10:00-11:00
do. -/
theorem overlap_semantics :
    (∀ (rid : Nat) (d : ℤ) (s e bs be : Nat),
      check_time_slot_available [mkActiveBooking rid d bs be] rid d s e = false
        ↔ (s < be ∧ e > bs))
    ∧ check_time_slot_available [mkActiveBooking 1 0 600 660] 1 0 540 600 = true
    ∧ check_time_slot_available [mkActiveBooking 1 0 540 600] 1 0 600 660 = true
    ∧ check_time_slot_available [mkActiveBooking 1 0 600 660] 1 0 540 601 = false := by
  refine ⟨?_, by decide, by decide, by decide⟩
  intro rid d s e bs be
  simp [check_time_slot_available, mkActiveBooking, activeStatuses]

theorem mem_activeStatuses (st : BookingStatus) :
    st ∈ activeStatuses ↔
      (st = .PENDING_APPROVAL ∨ st = .APPROVED ∨
        st = .CONFIRMED ∨ st = .CHECKED_IN) := by
  cases st <;> simp [activeStatuses]

/-- C2: the availability check reports a conflict exactly when some booking of
the resource and date in one of the four reserving statuses overlaps the
request; bookings in `REJECTED`, `CANCELLED`, `REFUNDED`, or `COMPLETED` never
make the interval unavailable. -/
theorem conflict_statuses (db : List Booking) (rid : Nat) (d : ℤ) (s e : Nat) :
    check_time_slot_available db rid d s e = false ↔
      ∃ b, b ∈ db ∧ b.resource_id = rid ∧ b.booking_date = d ∧
        (b.status = .PENDING_APPROVAL ∨ b.status = .APPROVED ∨
          b.status = .CONFIRMED ∨ b.status = .CHECKED_IN) ∧
        s < b.end_time ∧ e > b.start_time := by
  rw [show (check_time_slot_available db rid d s e = false) ↔
      ¬ (check_time_slot_available db rid d s e = true) from by simp]
  simp only [check_time_slot_available, if_neg (by omega : ¬ (0 : Nat) ≠ 0),
    List.all_eq_true, List.mem_filter]
  push_neg
  constructor
  · rintro ⟨b, ⟨hmem, hflt⟩, hover⟩
    simp [mem_activeStatuses] at hflt
    simp at hover
    exact ⟨b, hmem, hflt.1.1, hflt.1.2, hflt.2, hover.1, hover.2⟩
  · rintro ⟨b, hmem, hrid, hdate, hstatus, hs, he⟩
    refine ⟨b, ⟨hmem, ?_⟩, ?_⟩
    · simp [mem_activeStatuses, hrid, hdate, hstatus]
    · simp [hs, he]

/-- C7: rejecting with no (or an empty) reason fails with a validation error
and leaves the booking unchanged; an owner rejecting a pending booking with a
non-empty reason gets status REJECTED with the reason stored and the approval
fields null. -/
theorem reject_requires_reason (b : Booking) (st : Studio) (u : Nat) (now : ℤ)
    (s : String) :
    (decide_booking b st false none u now =
        .error (.validationError "Rejection reason is required when rejecting a booking")
      ∧ decide_booking b st false (some "") u now =
        .error (.validationError "Rejection reason is required when rejecting a booking")
      ∧ post_state b (decide_booking b st false none u now) = b)
    ∧ (st.owner_id = u → b.status = .PENDING_APPROVAL → s ≠ "" →
        decide_booking b st false (some s) u now =
          .ok { b with status := .REJECTED, rejection_reason := some s,
                       approved_at := none, approved_by := none }) := by
  refine ⟨⟨rfl, rfl, rfl⟩, ?_⟩
  intro howner hstatus hne
  have hblank : (s == "") = false := by
    rw [beq_eq_false_iff_ne]
    exact hne
  simp [decide_booking, validate_rejection_reason, optionStringBlank,
    approve_or_reject_booking, hblank, howner, hstatus]

theorem reject_requires_reason_witness :
    decide_booking samplePendingBooking sampleStudio false (some "unavailable") 5 0 =
      .ok { samplePendingBooking with status := .REJECTED,
                                        rejection_reason := some "unavailable",
                                        approved_at := none,
                                        approved_by := none } :=
  (reject_requires_reason samplePendingBooking sampleStudio 5 0 "unavailable").2
    rfl rfl (by decide)

theorem cancel_booking_eq_ok (b : Booking) (cd : BookingCancellation) (u : Nat)
    (now : ℤ) (hu : b.user_id = u)
    (hterm : ¬(b.status = .CANCELLED ∨ b.status = .REFUNDED ∨
      b.status = .COMPLETED)) :
    cancel_booking b cd u now =
      .ok { b with status := .CANCELLED, cancelled_at := some now,
                   cancel_reason := some cd.cancel_reason,
                   refund_percentage := some (calculate_refund_amount
                     b.total_amount b.booking_date b.start_time now).1,
                   refund_amount := some (calculate_refund_amount
                     b.total_amount b.booking_date b.start_time now).2 } := by
  unfold cancel_booking
  rw [if_neg (by simp [hu]), if_neg (by simpa using hterm)]

theorem cancel_booking_eq_error (b : Booking) (cd : BookingCancellation)
    (u : Nat) (now : ℤ) (hu : b.user_id = u)
    (hterm : b.status = .CANCELLED ∨ b.status = .REFUNDED ∨
      b.status = .COMPLETED) :
    cancel_booking b cd u now = .error (.invalidTransition b.status) := by
  unfold cancel_booking
  rw [if_neg (by simp [hu]), if_pos (by simpa using hterm)]

/-- C4 (amended): cancellation by the booking's own customer succeeds exactly
when the current status is NOT one of CANCELLED, REFUNDED, COMPLETED (so also
from REJECTED, beyond the claim's four statuses); on a terminal status it
fails with `InvalidTransition` leaving the booking unchanged, and a second
cancel of an already cancelled booking always fails without modifying it. -/
theorem cancel_transitions (b : Booking) (cd : BookingCancellation) (u : Nat)
    (now : ℤ) :
    b.user_id = u →
    (((∃ b2, cancel_booking b cd u now = .ok b2) ↔
        ¬(b.status = .CANCELLED ∨ b.status = .REFUNDED ∨
          b.status = .COMPLETED))
      ∧ ((b.status = .CANCELLED ∨ b.status = .REFUNDED ∨
            b.status = .COMPLETED) →
          cancel_booking b cd u now = .error (.invalidTransition b.status)
            ∧ post_state b (cancel_booking b cd u now) = b)
      ∧ (∀ b2, cancel_booking b cd u now = .ok b2 →
          b2.status = .CANCELLED ∧ b2.cancelled_at = some now
            ∧ b2.cancel_reason = some cd.cancel_reason
            ∧ b2.refund_percentage = some (calculate_refund_amount
                b.total_amount b.booking_date b.start_time now).1
            ∧ b2.refund_amount = some (calculate_refund_amount
                b.total_amount b.booking_date b.start_time now).2
            ∧ (∀ cd2 now2, cancel_booking b2 cd2 u now2 =
                  .error (.invalidTransition .CANCELLED)
                ∧ post_state b2 (cancel_booking b2 cd2 u now2) = b2))) := by
  intro hu
  by_cases hterm : b.status = .CANCELLED ∨ b.status = .REFUNDED ∨
    b.status = .COMPLETED
  · refine ⟨?_, fun _ => ⟨cancel_booking_eq_error b cd u now hu hterm, ?_⟩, ?_⟩
    · constructor
      · rintro ⟨b2, hok⟩
        rw [cancel_booking_eq_error b cd u now hu hterm] at hok
        exact absurd hok (by simp)
      · intro hc
        exact absurd hterm hc
    · rw [cancel_booking_eq_error b cd u now hu hterm]
      rfl
    · intro b2 hok
      rw [cancel_booking_eq_error b cd u now hu hterm] at hok
      exact absurd hok (by simp)
  · refine ⟨⟨fun _ => hterm, fun _ => ⟨_, cancel_booking_eq_ok b cd u now hu hterm⟩⟩,
      fun hc => absurd hc hterm, ?_⟩
    intro b2 hok
    rw [cancel_booking_eq_ok b cd u now hu hterm] at hok
    simp only [Except.ok.injEq] at hok
    subst hok
    refine ⟨rfl, rfl, rfl, rfl, rfl, ?_⟩
    intro cd2 now2
    have herr := cancel_booking_eq_error
      { b with status := .CANCELLED, cancelled_at := some now,
               cancel_reason := some cd.cancel_reason,
               refund_percentage := some (calculate_refund_amount
                 b.total_amount b.booking_date b.start_time now).1,
               refund_amount := some (calculate_refund_amount
                 b.total_amount b.booking_date b.start_time now).2 }
      cd2 u now2 hu (Or.inl rfl)
    exact ⟨herr, by rw [herr]; rfl⟩

theorem cancel_transitions_witness :
    ∃ b2, cancel_booking samplePendingBooking { cancel_reason := "bad weather" }
      7 0 = .ok b2 := by
  exact (cancel_transitions samplePendingBooking
    { cancel_reason := "bad weather" } 7 0 rfl).1.mpr (by decide)

/-- C4 counterexample: the booking's own customer can cancel a booking whose
status is `REJECTED`, so cancellation does NOT succeed only from
{PENDING_APPROVAL, APPROVED, CONFIRMED, CHECKED_IN}. -/
theorem cancel_rejected_succeeds :
    sampleRejectedBooking.status = .REJECTED
    ∧ (cancel_booking sampleRejectedBooking { cancel_reason := "changed plans" }
        7 0).isOk = true := by
  exact ⟨rfl, by decide⟩

/-- C3: when the resource is active, the studio is active and published, the
interval is available, and the duration is at least 30 and a multiple of 30,
creation succeeds with status PENDING_APPROVAL and total_amount given by the
pricing engine; concretely, rate 1500.00/hr and 14:00-16:00 (840-960 minutes)
yields duration_minutes 120 and total_amount 3000.00. -/
theorem create_booking_success :
    (∀ (db : List Booking) (resources : List Resource) (studios : List Studio)
      (u : Nat) (bd : BookingCreate) (resource : Resource) (studio : Studio),
      resources.find? (fun r => r.resource_id == bd.resource_id) = some resource →
      resource.is_active = true →
      studios.find? (fun s2 => s2.studio_id == resource.studio_id) = some studio →
      studio.is_active = true →
      studio.is_published = true →
      check_time_slot_available db bd.resource_id bd.booking_date bd.start_time
        bd.end_time = true →
      30 ≤ calculate_duration_minutes bd.start_time bd.end_time →
      calculate_duration_minutes bd.start_time bd.end_time % 30 = 0 →
      ∃ b, create_booking db resources studios u bd = .ok b
        ∧ b.status = .PENDING_APPROVAL
        ∧ b.total_amount = calculate_booking_price resource.base_price_per_hour
            (calculate_duration_minutes bd.start_time bd.end_time)
        ∧ b.duration_minutes = calculate_duration_minutes bd.start_time bd.end_time)
    ∧ create_booking [] [sampleResource] [sampleStudio] 7
        { resource_id := 1, booking_date := 2, start_time := 840, end_time := 960 } =
      .ok { samplePendingBooking with booking_id := 0 } := by
  constructor
  · intro db resources studios u bd resource studio hfind hact hsfind hsact
      hspub havail hdur hmod
    have h30 : ¬ (calculate_duration_minutes bd.start_time bd.end_time < 30) := by
      omega
    simp only [create_booking, hfind, hsfind, hact, hsact, hspub, havail, hmod,
      h30, Bool.not_true, Bool.or_self, Bool.false_or, Bool.or_false, ite_false,
      if_false, ne_eq, not_true_eq_false, not_false_eq_true, ite_true, if_true]
    exact ⟨_, rfl, rfl, rfl, rfl⟩
  · have hprice : calculate_booking_price 1500 120 = 3000 := by
      have h := calculate_booking_price_exact 150000 4 (by norm_num)
        (by norm_num) (by norm_num)
      norm_num at h
      rw [h]
      have h2 := round2_hundredth 300000
      norm_num at h2
      exact h2
    simp only [create_booking, sampleResource, sampleStudio, samplePendingBooking]
    norm_num [check_time_slot_available, calculate_duration_minutes, hprice,
      List.find?]

theorem create_booking_success_witness :
    ∃ b, create_booking [] [sampleResource] [sampleStudio] 7
        { resource_id := 1, booking_date := 2, start_time := 840, end_time := 960 } =
        .ok b
      ∧ b.status = .PENDING_APPROVAL
      ∧ b.total_amount = calculate_booking_price sampleResource.base_price_per_hour
          (calculate_duration_minutes 840 960)
      ∧ b.duration_minutes = calculate_duration_minutes 840 960 := by
  exact create_booking_success.1 [] [sampleResource] [sampleStudio] 7
    { resource_id := 1, booking_date := 2, start_time := 840, end_time := 960 }
    sampleResource sampleStudio rfl rfl rfl rfl rfl rfl (by decide) (by decide)

/-- C8: for an active resource the slot listing is exactly the 26 consecutive
30-minute windows 09:00, 09:30, ..., 21:30 (540 to 1320 minutes) in order,
each carrying the availability checker's verdict for its window and the
pricing engine's 30-minute price. -/
theorem slots_enumeration (db : List Booking) (resource : Resource) (d : ℤ) :
    resource.is_active = true →
    get_available_slots db resource d =
      .ok ((List.range 26).map (fun k =>
        { start_time := 540 + 30 * k
          end_time := 570 + 30 * k
          is_available := check_time_slot_available db resource.resource_id d
            (540 + 30 * k) (570 + 30 * k)
          price := calculate_booking_price resource.base_price_per_hour 30 })) := by
  intro hact
  unfold get_available_slots
  rw [if_neg (by simp [hact])]
  rfl

theorem slots_enumeration_witness :
    get_available_slots [] sampleResource 2 =
      .ok ((List.range 26).map (fun k =>
        { start_time := 540 + 30 * k
          end_time := 570 + 30 * k
          is_available := check_time_slot_available [] sampleResource.resource_id 2
            (540 + 30 * k) (570 + 30 * k)
          price := calculate_booking_price sampleResource.base_price_per_hour 30 })) :=
  slots_enumeration [] sampleResource 2 rfl

theorem round2_tie_even (x : ℚ) (h : Int.fract (x * 100) = 1/2) :
    ∃ k : ℤ, k % 2 = 0 ∧ round2 x = (k : ℚ) / 100 := by
  have hf : x * 100 - (⌊x * 100⌋ : ℚ) = 1/2 := by
    rw [Int.self_sub_floor]
    exact h
  have hnlt : ¬ (x * 100 - (⌊x * 100⌋ : ℚ) < 1/2) := by
    rw [hf]
    exact lt_irrefl _
  have hngt : ¬ ((1 : ℚ)/2 < x * 100 - (⌊x * 100⌋ : ℚ)) := by
    rw [hf]
    exact lt_irrefl _
  by_cases hpar : ⌊x * 100⌋ % 2 = 0
  · refine ⟨⌊x * 100⌋, hpar, ?_⟩
    simp only [round2, roundHalfEvenInt]
    rw [if_neg hnlt, if_neg hngt, if_pos hpar]
  · refine ⟨⌊x * 100⌋ + 1, by omega, ?_⟩
    simp only [round2, roundHalfEvenInt]
    rw [if_neg hnlt, if_neg hngt, if_neg hpar]

theorem floor_five_halves : ⌊(5/2 : ℚ)⌋ = 2 := by
  rw [Int.floor_eq_iff]
  norm_num

/-- C10 (amended): both money computations round with the half-even
tie-break: the refund computation always, and the pricing computation whenever
its Decimal arithmetic is exact — durations a positive multiple of 30 minutes
up to a day with 2-decimal rates — so a half-cent tie lands on the even cent;
price(0.05/hr, 30 min) = 0.02, not 0.03.  Off that grid the 28-digit context
perturbs the product away from the exact tie (price(0.03/hr, 10 min) = 0.01,
an odd cent). -/
theorem money_rounds_half_even (n m : ℤ) (total : ℚ) (bd cd : ℤ) (st : Nat) :
    (1 ≤ m → m ≤ 48 → |n| ≤ 10^12 →
      Int.fract ((n:ℚ)/100 * (((30 * m : ℤ):ℚ) / 60) * 100) = 1/2 →
      ∃ k : ℤ, k % 2 = 0 ∧
        calculate_booking_price ((n:ℚ)/100) (30 * m) = (k:ℚ)/100)
    ∧ (Int.fract (total * (calculate_refund_amount total bd st cd).1 / 100 * 100)
        = 1/2 →
      ∃ k : ℤ, k % 2 = 0 ∧
        (calculate_refund_amount total bd st cd).2 = (k:ℚ)/100)
    ∧ calculate_booking_price (5/100) 30 = 2/100
    ∧ calculate_booking_price (5/100) 30 ≠ 3/100 := by
  have hval : calculate_booking_price (5/100) 30 = 2/100 := by
    have h := calculate_booking_price_exact 5 1 (by norm_num) (by norm_num)
      (by norm_num)
    rw [show (5/100 : ℚ) = ((5:ℤ):ℚ)/100 by norm_num,
      show (30 : ℤ) = 30 * 1 by norm_num, h,
      show (((5:ℤ):ℚ)/100 * (((30 * 1 : ℤ):ℚ) / 60)) = 1/40 by norm_num]
    unfold round2
    rw [show ((1/40 : ℚ) * 100) = 5/2 by norm_num,
      roundHalfEvenInt_eval_tie (5/2 : ℚ) 2 floor_five_halves (by norm_num)
        (by norm_num)]
    norm_num
  refine ⟨?_, ?_, hval, ?_⟩
  · intro h1 h48 hn htie
    rw [calculate_booking_price_exact n m h1 h48 hn]
    exact round2_tie_even _ htie
  · intro h
    rcases le_or_lt 86400 (datetime_combine bd st - cd) with hge | hlt
    · rw [calculate_refund_amount_def, if_pos hge] at h ⊢
      exact round2_tie_even _ h
    · rw [calculate_refund_amount_def, if_neg (not_le.mpr hlt)] at h ⊢
      exact round2_tie_even _ h
  · rw [hval]
    norm_num

/-- C10 counterexample: at rate 0.03/hr and duration 10 minutes the exact
product 0.005 ends in a half cent and half-even rounding of it gives the even
cent 0.00, yet the program returns 0.01 — an odd cent — because the 28-digit
context perturbs the intermediate product. -/
theorem money_tie_counterexample :
    Int.fract ((3:ℚ)/100 * (((10:ℤ):ℚ) / 60) * 100) = 1/2
    ∧ round2 ((3:ℚ)/100 * (((10:ℤ):ℚ) / 60)) = 0
    ∧ calculate_booking_price (3/100) 10 = 1/100
    ∧ (1:ℚ)/100 ≠ 0 := by
  have hfl0 : ⌊(1/2 : ℚ)⌋ = 0 := by
    rw [Int.floor_eq_iff] <;> norm_num
  refine ⟨?_, ?_, calculate_booking_price_003_10, by norm_num⟩
  · rw [show ((3:ℚ)/100 * (((10:ℤ):ℚ) / 60) * 100) = 1/2 by norm_num,
      Int.fract, hfl0]
    norm_num
  · rw [show ((3:ℚ)/100 * (((10:ℤ):ℚ) / 60)) = 1/200 by norm_num]
    unfold round2
    rw [show ((1/200 : ℚ) * 100) = 1/2 by norm_num,
      roundHalfEvenInt_eval_tie (1/2 : ℚ) 0 hfl0 (by norm_num) (by norm_num)]
    norm_num

theorem money_rounds_half_even_witness :
    (∃ k : ℤ, k % 2 = 0 ∧
      calculate_booking_price (((5:ℤ):ℚ)/100) (30 * 1) = (k:ℚ)/100)
    ∧ (∃ k : ℤ, k % 2 = 0 ∧
        (calculate_refund_amount (1/32) 1 540
          (datetime_combine 1 540 - 86400)).2 = (k:ℚ)/100) := by
  have hfl : ⌊(5/2 : ℚ)⌋ = 2 := floor_five_halves
  have htie1 : Int.fract (((5:ℤ):ℚ)/100 * (((30 * 1 : ℤ):ℚ) / 60) * 100) = 1/2 := by
    rw [show (((5:ℤ):ℚ)/100 * (((30 * 1 : ℤ):ℚ) / 60) * 100) = 5/2 by norm_num,
      Int.fract, hfl]
    norm_num
  have htie2 : Int.fract ((1/32 : ℚ) *
      (calculate_refund_amount (1/32) 1 540
        (datetime_combine 1 540 - 86400)).1 / 100 * 100) = 1/2 := by
    rw [calculate_refund_amount_def, if_pos (by omega)]
    rw [show (1/32 : ℚ) * ((80 : ℚ), round2 ((1/32 : ℚ) * 80 / 100)).1 / 100 * 100
      = 5/2 from by norm_num]
    rw [Int.fract, hfl]
    norm_num
  exact ⟨(money_rounds_half_even 5 1 (1/32) 1
      (datetime_combine 1 540 - 86400) 540).1 (by norm_num) (by norm_num)
      (by norm_num) htie1,
    (money_rounds_half_even 5 1 (1/32) 1
      (datetime_combine 1 540 - 86400) 540).2.1 htie2⟩
